import Mathlib

set_option maxRecDepth 8192

/-!
Verification of the Catalysis Hub MCP server (`src/index.ts`).

The development shallowly embeds the worker's `fetch` handler and the
`executeGraphQLQuery` helper.  JSON values (request bodies, response
envelopes, the upstream GraphQL reply) are modelled by the inductive
`Json`; `Json.stringify` mirrors JavaScript's `JSON.stringify` on such
values (insertion-ordered object keys, standard string escaping, and an
`undefined`-valued key being dropped is modelled by omitting the field).
The upstream network is modelled by a function `Upstream` from the
outbound request body to the observed outcome of `fetch`: the promise
rejecting with a thrown value, or a response with an HTTP status code
and the result of parsing its body.  Thrown JavaScript values are
modelled by `JsException`: values that are `instanceof Error` carry
their `message`; any other thrown value carries its `String(·)` form.
-/

/-- A JSON value.  Object fields are kept in insertion order, as
`JSON.parse`/`JSON.stringify` and JavaScript object literals preserve it;
values produced by `JSON.parse` have no duplicate keys (the last
occurrence wins at parse time), so lookup takes the first match. -/
inductive Json where
  | null : Json
  | bool (b : Bool) : Json
  | num (n : Int) : Json
  | str (s : String) : Json
  | arr (elems : List Json) : Json
  | obj (fields : List (String × Json)) : Json

/-- Lower-case hexadecimal digit, for `\u00XX` escapes. -/
def hexDigit (n : Nat) : Char :=
  if n < 10 then Char.ofNat (48 + n) else Char.ofNat (87 + n)

/-- How `JSON.stringify` escapes one character inside a string literal. -/
def jsonEscapeChar (c : Char) : String :=
  if c = '"' then "\\\""
  else if c = '\\' then "\\\\"
  else if c.toNat = 8 then "\\b"
  else if c.toNat = 9 then "\\t"
  else if c.toNat = 10 then "\\n"
  else if c.toNat = 12 then "\\f"
  else if c.toNat = 13 then "\\r"
  else if c.toNat < 32 then
    "\\u00" ++ String.singleton (hexDigit (c.toNat / 16)) ++ String.singleton (hexDigit (c.toNat % 16))
  else String.singleton c

/-- `JSON.stringify` of a string: quoted and escaped. -/
def jsonEscape (s : String) : String :=
  "\"" ++ String.join (s.data.map jsonEscapeChar) ++ "\""

mutual

/-- `JSON.stringify` on `Json` values (no spacing, insertion order). -/
def Json.stringify : Json → String
  | .null => "null"
  | .bool b => cond b "true" "false"
  | .num n => toString n
  | .str s => jsonEscape s
  | .arr es => "[" ++ Json.stringifyElems es ++ "]"
  | .obj fs => "\x7b" ++ Json.stringifyFields fs ++ "\x7d"

/-- Comma-separated serialization of array elements. -/
def Json.stringifyElems : List Json → String
  | [] => ""
  | [e] => e.stringify
  | e :: rest => e.stringify ++ "," ++ Json.stringifyElems rest

/-- Comma-separated serialization of object fields. -/
def Json.stringifyFields : List (String × Json) → String
  | [] => ""
  | [(k, v)] => jsonEscape k ++ ":" ++ v.stringify
  | (k, v) :: rest => jsonEscape k ++ ":" ++ v.stringify ++ "," ++ Json.stringifyFields rest

end

/-- JavaScript truthiness of a JSON value (`NaN` cannot arise from
parsed JSON, numbers are modelled as integers). -/
def jsTruthy : Json → Bool
  | .null => false
  | .bool b => b
  | .num n => n != 0
  | .str s => !s.isEmpty
  | .arr _ => true
  | .obj _ => true

/-- Truthiness of a possibly-`undefined` value (`none` = `undefined`). -/
def jsTruthyOpt : Option Json → Bool
  | some j => jsTruthy j
  | none => false

/-- First-match field lookup in an object's field list. -/
def lookupField : List (String × Json) → String → Option Json
  | [], _ => none
  | (k, v) :: rest, key => if k == key then some v else lookupField rest key

/-- JavaScript property read `j[key]` on a non-nullish value: a field of
an object, `undefined` (`none`) on primitives, arrays and missing keys. -/
def Json.get? : Json → String → Option Json
  | .obj fs, key => lookupField fs key
  | _, _ => none

/-- Property read on a possibly-`undefined` base; used only where the
surrounding code has already ruled out a nullish base. -/
def jsGet (o : Option Json) (key : String) : Option Json :=
  match o with
  | some j => j.get? key
  | none => none

/-- Strict equality `x === "s"` of a possibly-`undefined` value with a
string literal. -/
def isStrOpt (o : Option Json) (s : String) : Bool :=
  match o with
  | some (.str t) => t == s
  | _ => false

/-- Optional chaining `x?.key`: `undefined` when the base is nullish. -/
def jsOptChain (o : Option Json) (key : String) : Option Json :=
  match o with
  | none => none
  | some .null => none
  | some j => j.get? key

/-- JavaScript `x || d`: the value when truthy, otherwise the default. -/
def jsOr (o : Option Json) (dflt : Json) : Json :=
  match o with
  | some j => if jsTruthy j then j else dflt
  | none => dflt

/-- Is the value JSON `null`? -/
def isNull : Json → Bool
  | .null => true
  | _ => false

mutual

/-- JavaScript `String(·)` on a JSON value (template-literal
interpolation): arrays join their elements with commas, objects print
as `[object Object]`. -/
def jsToStr : Json → String
  | .null => "null"
  | .bool b => cond b "true" "false"
  | .num n => toString n
  | .str s => s
  | .arr es => jsToStrElems es
  | .obj _ => "[object Object]"

/-- `Array.prototype.toString`: elements joined by commas. -/
def jsToStrElems : List Json → String
  | [] => ""
  | [e] => jsToStrElem e
  | e :: rest => jsToStrElem e ++ "," ++ jsToStrElems rest

/-- One element inside an array join: like `jsToStr` except that `null`
renders as the empty string. -/
def jsToStrElem : Json → String
  | .null => ""
  | .bool b => cond b "true" "false"
  | .num n => toString n
  | .str s => s
  | .arr es => jsToStrElems es
  | .obj _ => "[object Object]"

end

/-- `String(·)` of a possibly-`undefined` value. -/
def jsToStrOpt : Option Json → String
  | some j => jsToStr j
  | none => "undefined"

/-- A thrown JavaScript value, as far as the catch blocks of the source
distinguish thrown values: `error` is a value satisfying
`instanceof Error` (which subsumes `TypeError`) carrying its `message`;
`other` is any other thrown value carrying its `String(·)` form. -/
inductive JsException where
  | error (message : String) : JsException
  | other (stringified : String) : JsException

/-- Observed outcome of the outbound `fetch` to the GraphQL endpoint:
either the promise rejects with a thrown value, or a response arrives
with an HTTP `status`; `body` is the result of `response.json()`
(`Except.error` when parsing the response body throws). -/
inductive FetchOutcome where
  | netFail (e : JsException) : FetchOutcome
  | reply (status : Nat) (body : Except JsException Json) : FetchOutcome

/-- A model of the upstream endpoint: what happens when the serialized
form of the given JSON value is POSTed to it. -/
abbrev Upstream := Json → FetchOutcome

/-- `response.ok`: status in the inclusive range 200–299. -/
def okStatus (status : Nat) : Bool :=
  200 ≤ status && status ≤ 299

/-- The outbound request body built by `executeGraphQLQuery`:
`data = {query}` and `if (variables) data.variables = variables`.
A `query` that is `undefined` is dropped by `JSON.stringify`, modelled
by omitting the field; the `variables` key is added only when the
supplied value is truthy. -/
def graphqlRequestBody (query vars : Option Json) : Json :=
  Json.obj
    ((match query with
      | some q => [("query", q)]
      | none => []) ++
     (match vars with
      | some v => if jsTruthy v then [("variables", v)] else []
      | none => []))

/-- The `try` block of `executeGraphQLQuery`: POST the body, throw
`Error("HTTP error! status: …")` on a non-ok status, otherwise return
the parsed response body (whose parsing may itself throw). -/
def executeGraphQLQueryTry (upstream : Upstream) (query vars : Option Json) :
    Except JsException Json :=
  match upstream (graphqlRequestBody query vars) with
  | .netFail e => .error e
  | .reply status body =>
    if okStatus status then body
    else .error (.error ("HTTP error! status: " ++ toString status))

/-- `executeGraphQLQuery`: the `try` block with its `catch`, which turns
any thrown value into a GraphQL-style `{errors:[{message}]}` value.
`error instanceof TypeError || error instanceof Error` collapses to
`instanceof Error` since `TypeError` is a subclass of `Error`. -/
def executeGraphQLQuery (upstream : Upstream) (query vars : Option Json) : Json :=
  match executeGraphQLQueryTry upstream query vars with
  | .ok j => j
  | .error (.error message) =>
    .obj [("errors", .arr [.obj [("message",
      .str ("HTTP Request Error connecting to Catalysis Hub: " ++ message))]])]
  | .error (.other s) =>
    .obj [("errors", .arr [.obj [("message",
      .str ("An unexpected error occurred: " ++ s))]])]

/-- The `{errors:[{message: m}]}` value shape. -/
def graphqlErrors (m : String) : Json :=
  .obj [("errors", .arr [.obj [("message", .str m)]])]

/-- The message produced by the `catch` of `executeGraphQLQuery` for a
thrown value. -/
def wrapMsg : JsException → String
  | .error message => "HTTP Request Error connecting to Catalysis Hub: " ++ message
  | .other s => "An unexpected error occurred: " ++ s

/-- Inbound HTTP request method, as far as the handler distinguishes it. -/
inductive HttpMethod where
  | OPTIONS : HttpMethod
  | GET : HttpMethod
  | POST : HttpMethod

/-- An HTTP response: status code and optional body text
(`Response(null, …)` is `none`).  Headers are the constant CORS set and
are not modelled. -/
structure HttpResp where
  status : Nat
  body : Option String
deriving DecidableEq

/-- Does evaluating `args.query?.slice(0, 100)` (in the `console.error`
template at the start of the inner `try`) throw?  It does when `args`
itself is nullish (property read on `undefined`/`null`), and when
`args.query` is present, non-nullish, and has no `slice` method
(anything but a string or an array). -/
def queryPreviewThrows (args : Option Json) : Bool :=
  match args with
  | none => true
  | some .null => true
  | some a =>
    match a.get? "query" with
    | none => false
    | some .null => false
    | some (.str _) => false
    | some (.arr _) => false
    | some _ => true

/-- The `message` of the `TypeError` thrown by
`args.query?.slice(0, 100)` when `args.query` has no `slice` method.
The exact engine-produced text is irrelevant to every property proved
below (only the branch taken and the status/code matter). -/
def typeErrorMessage : String := "args.query.slice is not a function"

/-- A field that is dropped when its value is `undefined`
(`JSON.stringify` omits `undefined`-valued keys). -/
def optField (key : String) (v : Option Json) : List (String × Json) :=
  match v with
  | some j => [(key, j)]
  | none => []

/-- A JSON-RPC result envelope `{jsonrpc, id, result}`; the `id` key is
dropped when `requestBody.id` was `undefined`. -/
def rpcResultEnvelope (idv : Option Json) (result : Json) : Json :=
  .obj ([("jsonrpc", .str "2.0")] ++ optField "id" idv ++ [("result", result)])

/-- A JSON-RPC error envelope `{jsonrpc, id, error:{code, message}}`. -/
def rpcErrorEnvelope (idv : Option Json) (code : Int) (message : String) : Json :=
  .obj ([("jsonrpc", .str "2.0")] ++ optField "id" idv ++
    [("error", .obj [("code", .num code), ("message", .str message)])])

/-- The outer-catch envelope
`{jsonrpc, error:{code:-32603, message}, id:null}` (note the `id` key
comes last here, matching the source's literal). -/
def internalErrorEnvelope : Json :=
  .obj [("jsonrpc", .str "2.0"),
    ("error", .obj [("code", .num (-32603)), ("message", .str "Internal server error")]),
    ("id", .null)]

/-- The `initialize` result object. -/
def initializeResult (protocolVersion : Json) : Json :=
  .obj [("protocolVersion", protocolVersion),
    ("capabilities", .obj [("tools", .obj [])]),
    ("serverInfo", .obj [("name", .str "CatalysisHub"), ("version", .str "0.1.0")])]

/-- The static `tools/list` result. -/
def toolsListResult : Json :=
  .obj [("tools", .arr [.obj [
    ("name", .str "catalysishub_graphql"),
    ("description", .str "Execute GraphQL queries against the Catalysis Hub API"),
    ("inputSchema", .obj [
      ("type", .str "object"),
      ("properties", .obj [
        ("query", .obj [("type", .str "string"),
          ("description", .str "The GraphQL query to execute against the Catalysis Hub API. Use introspection queries to discover the schema. If you get a HTTP 400 error, it means the query is invalid, and you should run introspection queries in order to correct your queries.")]),
        ("variables", .obj [("type", .str "object"),
          ("description", .str "Optional dictionary of variables for the GraphQL query")])]),
      ("required", .arr [.str "query"])])]])]

/-- The `tools/call` success result
`{content:[{type:"text", text: JSON.stringify(result)}]}`. -/
def toolCallResult (resultJson : Json) : Json :=
  .obj [("content", .arr [.obj [("type", .str "text"),
    ("text", .str (Json.stringify resultJson))]])]

/-- The body of the `fetch` handler's outer `try`: CORS preflight, the
liveness text for non-POST requests, then the JSON-RPC dispatch.
`Except.error` models a value thrown out of the `try` (a failed
`request.json()`, a property read on a `null` body, or destructuring
`requestBody.params` when it is nullish).  Both notification paths of
the source return the same empty 204, so they are collapsed here.  Any
throw inside the inner `try` of the `tools/call` branch is caught by the
inner `catch` and therefore yields an `.ok` 500 response rather than an
`.error`. -/
def handleFetchTry (upstream : Upstream) (method : HttpMethod) (body : Except Unit Json) :
    Except JsException HttpResp :=
  match method with
  | .OPTIONS => .ok ⟨204, none⟩
  | .GET => .ok ⟨200, some "Catalysis Hub MCP Server - Ready"⟩
  | .POST =>
    match body with
    | .error _ => .error (.error "Unexpected end of JSON input")
    | .ok requestBody =>
      if isNull requestBody then .error (.error "Cannot read properties of null") else
      let m := requestBody.get? "method"
      let idv := requestBody.get? "id"
      if isStrOpt m "initialize" then
        .ok ⟨200, some (Json.stringify (rpcResultEnvelope idv (initializeResult
          (jsOr (jsOptChain (requestBody.get? "params") "protocolVersion")
            (.str "2024-11-05")))))⟩
      else if jsTruthyOpt m && !jsTruthyOpt idv then
        .ok ⟨204, none⟩
      else if isStrOpt m "tools/list" then
        .ok ⟨200, some (Json.stringify (rpcResultEnvelope idv toolsListResult))⟩
      else if isStrOpt m "tools/call" then
        match requestBody.get? "params" with
        | none => .error (.error "Cannot destructure property of undefined")
        | some .null => .error (.error "Cannot destructure property of null")
        | some p =>
          let name := p.get? "name"
          let args := p.get? "arguments"
          if isStrOpt name "catalysishub_graphql" then
            if queryPreviewThrows args then
              .ok ⟨500, some (Json.stringify (rpcErrorEnvelope idv (-32603)
                ("Tool execution failed: " ++ typeErrorMessage)))⟩
            else
              .ok ⟨200, some (Json.stringify (rpcResultEnvelope idv (toolCallResult
                (executeGraphQLQuery upstream (jsGet args "query") (jsGet args "variables")))))⟩
          else
            .ok ⟨404, some (Json.stringify (rpcErrorEnvelope idv (-32601)
              ("Tool not found: " ++ jsToStrOpt name)))⟩
      else
        .ok ⟨404, some (Json.stringify (rpcErrorEnvelope idv (-32601)
          ("Method not found: " ++ jsToStrOpt m)))⟩

/-- The exported `fetch` handler: the outer `try` with its `catch`,
which answers any thrown value with the internal-error envelope and
status 500. -/
def handleFetch (upstream : Upstream) (method : HttpMethod) (body : Except Unit Json) :
    HttpResp :=
  match handleFetchTry upstream method body with
  | .ok r => r
  | .error _ => ⟨500, some (Json.stringify internalErrorEnvelope)⟩

/-- A JSON-RPC request envelope with the given `method`, `id` and
`params` fields (each omitted when `none`). -/
def mkRpcReq (method idv params : Option Json) : Json :=
  .obj ([("jsonrpc", .str "2.0")] ++ optField "method" method ++
    optField "id" idv ++ optField "params" params)

/-- A `tools/call` request with the given id, tool name and arguments. -/
def mkToolsCallReq (idv : Json) (name : Json) (args : Option Json) : Json :=
  mkRpcReq (some (.str "tools/call")) (some idv)
    (some (.obj ([("name", name)] ++ optField "arguments" args)))

/-- Arguments object with the query and optional variables for the GraphQL tool. -/
def mkGraphqlArgs (query : String) (vars : Option Json) : Json :=
  .obj ([("query", .str query)] ++ optField "variables" vars)

/-- An upstream that replies 200 with an empty object, for closed
instances. -/
def upstreamStub : Upstream := fun _ => .reply 200 (.ok (.obj []))

/-- The introspection query of the spec's concrete scenario. -/
def introspectionQuery : String :=
  "query\x7b__schema\x7bqueryType\x7bname\x7d\x7d\x7d"

/-- The mock upstream reply of the spec's concrete scenario. -/
def introspectionReply : Json :=
  .obj [("data", .obj [("__schema", .obj [("queryType", .obj [("name", .str "Query")])])])]

/-- An upstream that replies 200 with the mock introspection body. -/
def introspectionUpstream : Upstream := fun _ => .reply 200 (.ok introspectionReply)

/-- An upstream whose fetch promise rejects with a network `TypeError`. -/
def failingUpstream : Upstream := fun _ => .netFail (.error "fetch failed")

/-- Does the upstream call fail in one of the two ways the spec names:
the fetch promise rejects with an `Error` (a network failure throws a
`TypeError`, which is an `Error`), or a response arrives with a
non-success HTTP status? -/
def upstreamCallFails : FetchOutcome → Bool
  | .netFail (.error _) => true
  | .netFail (.other _) => false
  | .reply status _ => !okStatus status

/-- The message wrapped into the embedded `{errors:[…]}` value when the
upstream call fails in one of those two ways. -/
def failureMessage : FetchOutcome → String
  | .netFail (.error m) => "HTTP Request Error connecting to Catalysis Hub: " ++ m
  | .netFail (.other s) => "An unexpected error occurred: " ++ s
  | .reply status _ =>
    "HTTP Request Error connecting to Catalysis Hub: " ++ ("HTTP error! status: " ++ toString status)

/-- Does the field list carry the key? -/
def hasField : List (String × Json) → String → Bool
  | [], _ => false
  | (k, _) :: rest, key => k == key || hasField rest key

/-- Does the JSON value (an object) carry the key? -/
def hasKey (j : Json) (key : String) : Bool :=
  match j with
  | .obj fs => hasField fs key
  | _ => false

/-- Is the request's `method` one of the four strings the dispatcher
recognizes? -/
def knownMethod (m : Option Json) : Bool :=
  isStrOpt m "initialize" || isStrOpt m "notifications/initialized" ||
    isStrOpt m "tools/list" || isStrOpt m "tools/call"

/-- C7: a POST whose body is not valid JSON does not crash the handler:
`request.json()` throws, the outer catch answers with the generic
failure status 500 and the internal-error envelope with code -32603 and
id null. -/
theorem malformed_body_yields_internal_error (upstream : Upstream) :
    handleFetch upstream .POST (.error ()) =
      ⟨500, some "\x7b\"jsonrpc\":\"2.0\",\"error\":\x7b\"code\":-32603,\"message\":\"Internal server error\"\x7d,\"id\":null\x7d"⟩ := rfl

/-- C1: a `tools/call` of `catalysishub_graphql` with a truthy id, for
which the upstream replies with an ok status and JSON body `B`, returns
the HTTP 200 JSON-RPC success envelope carrying the request's id whose
result is `{content:[{type:"text", text: JSON.stringify B}]}`. -/
theorem toolsCall_ok_relays_upstream_body
    (upstream : Upstream) (idj : Json) (query : String) (vars : Option Json)
    (status : Nat) (B : Json)
    (hid : jsTruthy idj = true)
    (hup : upstream (graphqlRequestBody (some (.str query)) vars) =
      .reply status (.ok B))
    (hok : okStatus status = true) :
    handleFetch upstream .POST (.ok (mkToolsCallReq idj (.str "catalysishub_graphql")
        (some (mkGraphqlArgs query vars)))) =
      ⟨200, some (Json.stringify (rpcResultEnvelope (some idj) (toolCallResult B)))⟩ := by
  cases vars <;>
    simp [handleFetch, handleFetchTry, mkToolsCallReq, mkRpcReq, mkGraphqlArgs,
      optField, isNull, Json.get?, lookupField, isStrOpt, jsTruthyOpt, jsGet,
      queryPreviewThrows, executeGraphQLQuery, executeGraphQLQueryTry, hid, hup, hok]

/-- C1 witness: the spec's concrete scenario, id 1 and the introspection
query against the mock upstream, yields exactly the concrete envelope
given in the spec. -/
theorem toolsCall_ok_concrete_scenario :
    handleFetch introspectionUpstream .POST (.ok (mkToolsCallReq (.num 1)
        (.str "catalysishub_graphql") (some (mkGraphqlArgs introspectionQuery none)))) =
      ⟨200, some "\x7b\"jsonrpc\":\"2.0\",\"id\":1,\"result\":\x7b\"content\":[\x7b\"type\":\"text\",\"text\":\"\x7b\\\"data\\\":\x7b\\\"__schema\\\":\x7b\\\"queryType\\\":\x7b\\\"name\\\":\\\"Query\\\"\x7d\x7d\x7d\x7d\"\x7d]\x7d\x7d"⟩ :=
  (toolsCall_ok_relays_upstream_body introspectionUpstream (.num 1) introspectionQuery
    none 200 introspectionReply (by decide) rfl (by decide)).trans (by rfl)

/-- Field projections of a request envelope built by `mkRpcReq`, and
the fact that such an envelope is never JSON `null`. -/
theorem get_mkRpcReq (m idv params : Option Json) :
    (mkRpcReq m idv params).get? "method" = m ∧
    (mkRpcReq m idv params).get? "id" = idv ∧
    (mkRpcReq m idv params).get? "params" = params ∧
    isNull (mkRpcReq m idv params) = false := by
  cases m <;> cases idv <;> cases params <;>
    simp [mkRpcReq, optField, Json.get?, lookupField, isNull]

/-- Claim C3: `executeGraphQLQuery` never throws: for every upstream
behavior, query string and optional variables value it returns a value,
which is either the JSON body of an ok-status upstream response,
verbatim, or the `{errors:[{message: m}]}` value where `m` is the
thrown value's description behind the fixed label
(`"HTTP Request Error connecting to Catalysis Hub: "` for `Error`
instances, `"An unexpected error occurred: "` otherwise — see
`wrapMsg`). -/
theorem executeGraphQLQuery_never_throws (upstream : Upstream) (query : String)
    (vars : Option Json) :
    (∃ status B, upstream (graphqlRequestBody (some (.str query)) vars) =
        .reply status (.ok B) ∧ okStatus status = true ∧
        executeGraphQLQuery upstream (some (.str query)) vars = B) ∨
    (∃ e, executeGraphQLQueryTry upstream (some (.str query)) vars = .error e ∧
        executeGraphQLQuery upstream (some (.str query)) vars = graphqlErrors (wrapMsg e)) := by
  cases h : upstream (graphqlRequestBody (some (.str query)) vars) with
  | netFail e =>
    refine Or.inr ⟨e, ?_, ?_⟩
    · simp [executeGraphQLQueryTry, h]
    · cases e <;> simp [executeGraphQLQuery, executeGraphQLQueryTry, h, graphqlErrors, wrapMsg]
  | reply status body =>
    by_cases hok : okStatus status = true
    · cases body with
      | ok B =>
        exact Or.inl ⟨status, B, rfl,
          hok, by simp [executeGraphQLQuery, executeGraphQLQueryTry, h, hok]⟩
      | error e =>
        refine Or.inr ⟨e, ?_, ?_⟩
        · simp [executeGraphQLQueryTry, h, hok]
        · cases e <;>
            simp [executeGraphQLQuery, executeGraphQLQueryTry, h, hok, graphqlErrors, wrapMsg]
    · refine Or.inr ⟨.error ("HTTP error! status: " ++ toString status), ?_, ?_⟩
      · simp [executeGraphQLQueryTry, h, hok]
      · simp [executeGraphQLQuery, executeGraphQLQueryTry, h, hok, graphqlErrors, wrapMsg]

/-- Claim C8: the outbound request body always contains the key
`"query"` with the caller's query string, and contains the key
`"variables"` exactly when a variables map was supplied; when it is
absent the key is omitted entirely (never serialized as null). -/
theorem graphqlRequestBody_keys (query : String) (vars : Option (List (String × Json))) :
    (graphqlRequestBody (some (.str query)) (vars.map Json.obj)).get? "query" =
      some (.str query) ∧
    hasKey (graphqlRequestBody (some (.str query)) (vars.map Json.obj)) "variables" =
      vars.isSome := by
  cases vars <;>
    simp [graphqlRequestBody, Json.get?, lookupField, hasKey, hasField, jsTruthy]

/-- Claim C2: a `tools/call` of the known tool during which the
upstream call fails — the fetch throws an `Error` (network failure) or
the upstream returns a non-success status — still returns the HTTP 200
JSON-RPC success envelope (never an error envelope), whose embedded
text is the serialization of `{errors:[{message: m}]}` with `m` a
synthetic message starting with (hence containing) the substring
`"HTTP Request Error"`. -/
theorem toolsCall_upstream_failure_wrapped
    (upstream : Upstream) (idj : Json) (query : String) (vars : Option Json)
    (hid : jsTruthy idj = true)
    (hfail : upstreamCallFails (upstream (graphqlRequestBody (some (.str query)) vars)) = true) :
    handleFetch upstream .POST (.ok (mkToolsCallReq idj (.str "catalysishub_graphql")
        (some (mkGraphqlArgs query vars)))) =
      ⟨200, some (Json.stringify (rpcResultEnvelope (some idj) (toolCallResult
        (graphqlErrors (failureMessage
          (upstream (graphqlRequestBody (some (.str query)) vars)))))))⟩ ∧
    ∃ rest, failureMessage (upstream (graphqlRequestBody (some (.str query)) vars)) =
      "HTTP Request Error" ++ rest := by
  cases h : upstream (graphqlRequestBody (some (.str query)) vars) with
  | netFail e =>
    cases e with
    | error m =>
      constructor
      · cases vars <;>
          simp [handleFetch, handleFetchTry, mkToolsCallReq, mkRpcReq, mkGraphqlArgs,
            optField, isNull, Json.get?, lookupField, isStrOpt, jsTruthyOpt, jsGet,
            queryPreviewThrows, executeGraphQLQuery, executeGraphQLQueryTry, hid, h,
            graphqlErrors, failureMessage]
      · exact ⟨" connecting to Catalysis Hub: " ++ m, rfl⟩
    | other s =>
      rw [h] at hfail
      simp [upstreamCallFails] at hfail
  | reply status body =>
    rw [h] at hfail
    simp only [upstreamCallFails, Bool.not_eq_true'] at hfail
    constructor
    · cases vars <;>
        simp [handleFetch, handleFetchTry, mkToolsCallReq, mkRpcReq, mkGraphqlArgs,
          optField, isNull, Json.get?, lookupField, isStrOpt, jsTruthyOpt, jsGet,
          queryPreviewThrows, executeGraphQLQuery, executeGraphQLQueryTry, hid, h, hfail,
          graphqlErrors, failureMessage]
    · exact ⟨" connecting to Catalysis Hub: " ++ ("HTTP error! status: " ++ toString status), rfl⟩

/-- Claim C2 witness: a `tools/call` with id 1 against an upstream whose
fetch rejects with a network `Error` yields the RPC success envelope
whose embedded text decodes to the wrapped `"HTTP Request Error …"`
message. -/
theorem toolsCall_network_failure_concrete :
    handleFetch failingUpstream .POST (.ok (mkToolsCallReq (.num 1)
        (.str "catalysishub_graphql") (some (mkGraphqlArgs "query" none)))) =
      ⟨200, some "\x7b\"jsonrpc\":\"2.0\",\"id\":1,\"result\":\x7b\"content\":[\x7b\"type\":\"text\",\"text\":\"\x7b\\\"errors\\\":[\x7b\\\"message\\\":\\\"HTTP Request Error connecting to Catalysis Hub: fetch failed\\\"\x7d]\x7d\"\x7d]\x7d\x7d"⟩ :=
  ((toolsCall_upstream_failure_wrapped failingUpstream (.num 1) "query" none
    (by decide) (by decide)).1).trans (by rfl)

/-- Claim C4 counterexample: an `initialize` request that supplies
`params.protocolVersion` as the empty string (a well-typed string
value) does not get it echoed verbatim — `||` treats it as absent and
the handler answers with the default `"2024-11-05"`. -/
theorem initialize_empty_version_not_echoed :
    handleFetch upstreamStub .POST (.ok (mkRpcReq (some (.str "initialize")) (some (.num 1))
        (some (.obj [("protocolVersion", .str "")])))) =
      ⟨200, some "\x7b\"jsonrpc\":\"2.0\",\"id\":1,\"result\":\x7b\"protocolVersion\":\"2024-11-05\",\"capabilities\":\x7b\"tools\":\x7b\x7d\x7d,\"serverInfo\":\x7b\"name\":\"CatalysisHub\",\"version\":\"0.1.0\"\x7d\x7d\x7d"⟩ ∧
    ("2024-11-05" : String) ≠ "" :=
  ⟨rfl, by decide⟩

/-- Claim C4 (amended): for every `initialize` request the handler
replies 200 with `result.protocolVersion` equal to
`params.protocolVersion || "2024-11-05"` — the request's value verbatim
when it is supplied and truthy, the fixed default when it is omitted,
nullish, or otherwise falsy (empty string, 0, false) — together with
the static capabilities `{tools:{}}` and serverInfo
`{name:"CatalysisHub", version:"0.1.0"}`. -/
theorem initialize_echoes_truthy_version (upstream : Upstream) (idv params : Option Json) :
    handleFetch upstream .POST (.ok (mkRpcReq (some (.str "initialize")) idv params)) =
      ⟨200, some (Json.stringify (rpcResultEnvelope idv (initializeResult
        (jsOr (jsOptChain params "protocolVersion") (.str "2024-11-05")))))⟩ ∧
    (∀ pv, jsOptChain params "protocolVersion" = some pv → jsTruthy pv = true →
      jsOr (jsOptChain params "protocolVersion") (.str "2024-11-05") = pv) ∧
    (jsTruthyOpt (jsOptChain params "protocolVersion") = false →
      jsOr (jsOptChain params "protocolVersion") (.str "2024-11-05") = .str "2024-11-05") := by
  obtain ⟨hm, hi, hp, hn⟩ := get_mkRpcReq (some (.str "initialize")) idv params
  refine ⟨?_, ?_, ?_⟩
  · simp [handleFetch, handleFetchTry, hm, hi, hp, hn, isStrOpt]
  · intro pv hpv htr
    simp [jsOr, hpv, htr]
  · intro hf
    cases h : jsOptChain params "protocolVersion" with
    | none => simp [jsOr]
    | some pv =>
      rw [h] at hf
      simp only [jsTruthyOpt] at hf
      simp [jsOr, hf]

/-- Claim C4 witness: an `initialize` request with id 3 supplying the
(truthy) protocol version `"2025-06-18"` gets it echoed verbatim in the
response envelope. -/
theorem initialize_echo_concrete :
    handleFetch upstreamStub .POST (.ok (mkRpcReq (some (.str "initialize")) (some (.num 3))
        (some (.obj [("protocolVersion", .str "2025-06-18")])))) =
      ⟨200, some "\x7b\"jsonrpc\":\"2.0\",\"id\":3,\"result\":\x7b\"protocolVersion\":\"2025-06-18\",\"capabilities\":\x7b\"tools\":\x7b\x7d\x7d,\"serverInfo\":\x7b\"name\":\"CatalysisHub\",\"version\":\"0.1.0\"\x7d\x7d\x7d"⟩ ∧
    jsOr (jsOptChain (some (.obj [("protocolVersion", .str "2025-06-18")])) "protocolVersion")
        (.str "2024-11-05") = .str "2025-06-18" := by
  have h := initialize_echoes_truthy_version upstreamStub (some (.num 3))
    (some (.obj [("protocolVersion", .str "2025-06-18")]))
  exact ⟨h.1.trans (by rfl), h.2.1 (.str "2025-06-18") rfl (by decide)⟩

/-- Claim C5 counterexample: an unrecognized method sent WITH an id —
the well-typed id 0 — is not answered with a -32601 error envelope as
the claim demands: the falsy-id notification check swallows it and the
handler answers 204 with no body at all. -/
theorem unknown_method_id_zero_no_error :
    handleFetch upstreamStub .POST (.ok (mkRpcReq (some (.str "foo")) (some (.num 0)) none)) =
      ⟨204, none⟩ :=
  rfl

/-- Claim C5 (amended): for every request whose method is not in the
known set: when its id is truthy the handler answers HTTP 404 with a
JSON-RPC error envelope carrying code -32601; when its method is truthy
and its id is falsy or absent it answers HTTP 204 with no body and no
error. -/
theorem unknown_method_dispatch (upstream : Upstream) (m idv params : Option Json)
    (hm : knownMethod m = false) :
    (jsTruthyOpt idv = true →
      handleFetch upstream .POST (.ok (mkRpcReq m idv params)) =
        ⟨404, some (Json.stringify (rpcErrorEnvelope idv (-32601)
          ("Method not found: " ++ jsToStrOpt m)))⟩) ∧
    (jsTruthyOpt m = true → jsTruthyOpt idv = false →
      handleFetch upstream .POST (.ok (mkRpcReq m idv params)) = ⟨204, none⟩) := by
  obtain ⟨hgm, hgi, hgp, hgn⟩ := get_mkRpcReq m idv params
  simp only [knownMethod, Bool.or_eq_false_iff] at hm
  obtain ⟨⟨⟨h1, h2⟩, h3⟩, h4⟩ := hm
  constructor
  · intro hidv
    simp [handleFetch, handleFetchTry, hgm, hgi, hgp, hgn, h1, h2, h3, h4, hidv]
  · intro hmt hidv
    simp [handleFetch, handleFetchTry, hgm, hgi, hgp, hgn, h1, h2, h3, h4, hmt, hidv]

/-- Claim C5 witness: the unknown method `"foo"` with the truthy id 7
yields the 404 method-not-found envelope with code -32601. -/
theorem unknown_method_truthy_id_concrete :
    handleFetch upstreamStub .POST (.ok (mkRpcReq (some (.str "foo")) (some (.num 7)) none)) =
      ⟨404, some "\x7b\"jsonrpc\":\"2.0\",\"id\":7,\"error\":\x7b\"code\":-32601,\"message\":\"Method not found: foo\"\x7d\x7d"⟩ :=
  ((unknown_method_dispatch upstreamStub (some (.str "foo")) (some (.num 7)) none
    (by decide)).1 (by decide)).trans (by rfl)

/-- Claim C6 counterexample: a `tools/call` with an unknown tool name
and the present (but falsy) id 0 is not answered with HTTP 404 and code
-32601 as the claim demands: the notification check fires first and the
handler answers 204 with no body. -/
theorem toolsCall_unknown_tool_id_zero_no_404 :
    handleFetch upstreamStub .POST (.ok (mkToolsCallReq (.num 0) (.str "foo") none)) =
      ⟨204, none⟩ ∧ (204 : Nat) ≠ 404 :=
  ⟨rfl, by decide⟩

/-- Claim C6 (amended): every `tools/call` request with a truthy id and
a non-null params value whose `name` is not `"catalysishub_graphql"` is
answered with HTTP 404 and a JSON-RPC error envelope carrying -32601
(the method-not-found code used as tool-not-found). -/
theorem toolsCall_unknown_tool_404 (upstream : Upstream) (idj : Json) (p : Json)
    (hid : jsTruthy idj = true) (hp : isNull p = false)
    (hname : isStrOpt (p.get? "name") "catalysishub_graphql" = false) :
    handleFetch upstream .POST (.ok (mkRpcReq (some (.str "tools/call")) (some idj) (some p))) =
      ⟨404, some (Json.stringify (rpcErrorEnvelope (some idj) (-32601)
        ("Tool not found: " ++ jsToStrOpt (p.get? "name"))))⟩ := by
  obtain ⟨hgm, hgi, hgp, hgn⟩ := get_mkRpcReq (some (.str "tools/call")) (some idj) (some p)
  have c1 : isStrOpt (some (Json.str "tools/call")) "initialize" = false := by decide
  have c2 : isStrOpt (some (Json.str "tools/call")) "tools/list" = false := by decide
  have c3 : isStrOpt (some (Json.str "tools/call")) "tools/call" = true := by decide
  have c4 : jsTruthyOpt (some (Json.str "tools/call")) = true := by decide
  have c5 : jsTruthyOpt (some idj) = jsTruthy idj := rfl
  rcases p with _ | b | n | s | es | fs
  · simp [isNull] at hp
  all_goals
    simp [handleFetch, handleFetchTry, hgm, hgi, hgp, hgn, c1, c2, c3, c4, c5, hid, hname]

/-- Claim C6 witness: a `tools/call` naming the unknown tool `"nope"`
with the truthy id 2 yields the 404 tool-not-found envelope with code
-32601. -/
theorem toolsCall_unknown_tool_concrete :
    handleFetch upstreamStub .POST (.ok (mkRpcReq (some (.str "tools/call")) (some (.num 2))
        (some (.obj [("name", .str "nope")])))) =
      ⟨404, some "\x7b\"jsonrpc\":\"2.0\",\"id\":2,\"error\":\x7b\"code\":-32601,\"message\":\"Tool not found: nope\"\x7d\x7d"⟩ :=
  (toolsCall_unknown_tool_404 upstreamStub (.num 2) (.obj [("name", .str "nope")])
    (by decide) (by decide) (by decide)).trans (by rfl)

/-- Claim C9 counterexample: an envelope whose method is present (the
empty string — a value of the declared `method: string` type) but falsy,
with id 0, is NOT treated as a notification: the `method &&` half of the
check fails, the request falls through to the method-not-found branch,
and the handler answers 404 with an error envelope instead of 204 with
no body. -/
theorem empty_method_falsy_id_not_notification :
    handleFetch upstreamStub .POST (.ok (mkRpcReq (some (.str "")) (some (.num 0)) none)) =
      ⟨404, some "\x7b\"jsonrpc\":\"2.0\",\"id\":0,\"error\":\x7b\"code\":-32601,\"message\":\"Method not found: \"\x7d\x7d"⟩ ∧
    (404 : Nat) ≠ 204 :=
  ⟨rfl, by decide⟩

/-- Claim C9 (amended): the notification test
`requestBody.method && !requestBody.id` is a falsy check on id, not a
check for absence: every envelope whose method is truthy (e.g. a
nonempty string) and not `"initialize"` and whose id equals 0 or the
empty string is answered 204 with no body — uniformly in the upstream,
so in particular a `tools/call` with id 0 is never forwarded and
receives no JSON-RPC envelope even though an id is present. -/
theorem falsy_id_treated_as_notification (upstream : Upstream) (m idj : Json)
    (params : Option Json)
    (hm : jsTruthy m = true) (hmi : isStrOpt (some m) "initialize" = false)
    (hid : idj = .num 0 ∨ idj = .str "") :
    handleFetch upstream .POST (.ok (mkRpcReq (some m) (some idj) params)) = ⟨204, none⟩ := by
  obtain ⟨hgm, hgi, hgp, hgn⟩ := get_mkRpcReq (some m) (some idj) params
  have c5 : jsTruthyOpt (some m) = jsTruthy m := rfl
  rcases hid with h | h <;> subst h
  · have c6 : jsTruthyOpt (some (Json.num 0)) = false := by decide
    simp [handleFetch, handleFetchTry, hgm, hgi, hgp, hgn, hmi, c5, hm, c6]
  · have c6 : jsTruthyOpt (some (Json.str "")) = false := by decide
    simp [handleFetch, handleFetchTry, hgm, hgi, hgp, hgn, hmi, c5, hm, c6]

/-- Claim C9 witness: a `tools/call` of the known tool with id 0 and a
well-formed arguments object gets the empty 204, not an envelope, and
the result does not depend on the upstream. -/
theorem toolsCall_id_zero_notification_concrete :
    handleFetch upstreamStub .POST (.ok (mkRpcReq (some (.str "tools/call")) (some (.num 0))
        (some (.obj [("name", .str "catalysishub_graphql"),
          ("arguments", .obj [("query", .str "query")])])))) = ⟨204, none⟩ :=
  falsy_id_treated_as_notification upstreamStub (.str "tools/call") (.num 0)
    (some (.obj [("name", .str "catalysishub_graphql"),
      ("arguments", .obj [("query", .str "query")])]))
    (by decide) (by decide) (Or.inl rfl)

/-- Claim C10 counterexample: a `tools/call` of the known tool with a
params.arguments object present whose `query` is the number 5: the
`args.query?.slice(0, 100)` preview in the inner `try` throws a
`TypeError`, the inner catch IS reached, and the handler returns the
500 `"Tool execution failed"` error envelope, not the HTTP 200 success
envelope. -/
theorem toolsCall_numeric_query_inner_catch :
    handleFetch upstreamStub .POST (.ok (mkToolsCallReq (.num 1) (.str "catalysishub_graphql")
        (some (.obj [("query", .num 5)])))) =
      ⟨500, some "\x7b\"jsonrpc\":\"2.0\",\"id\":1,\"error\":\x7b\"code\":-32603,\"message\":\"Tool execution failed: args.query.slice is not a function\"\x7d\x7d"⟩ ∧
    (500 : Nat) ≠ 200 :=
  ⟨rfl, by decide⟩

/-- Claim C10 (amended): for every `tools/call` of the known tool with
a truthy id whose arguments do not make the `args.query?.slice(0, 100)`
preview throw (arguments present and non-null, and its `query` absent,
null, a string or an array), the inner catch branch is unreachable —
`executeGraphQLQuery` returns a value for every upstream behavior — and
the handler always returns the HTTP 200 success envelope. -/
theorem toolsCall_wellformed_args_success (upstream : Upstream) (idj : Json)
    (args : Option Json)
    (hid : jsTruthy idj = true) (hargs : queryPreviewThrows args = false) :
    handleFetch upstream .POST (.ok (mkToolsCallReq idj (.str "catalysishub_graphql") args)) =
      ⟨200, some (Json.stringify (rpcResultEnvelope (some idj) (toolCallResult
        (executeGraphQLQuery upstream (jsGet args "query") (jsGet args "variables")))))⟩ := by
  cases args with
  | none =>
    simp [handleFetch, handleFetchTry, mkToolsCallReq, mkRpcReq, optField, isNull, Json.get?,
      lookupField, isStrOpt, jsTruthyOpt, jsGet, hid, hargs]
  | some a =>
    simp [handleFetch, handleFetchTry, mkToolsCallReq, mkRpcReq, optField, isNull, Json.get?,
      lookupField, isStrOpt, jsTruthyOpt, jsGet, hid, hargs]

/-- Claim C10 witness: a `tools/call` with id 4, a string query and the
stub upstream returns the 200 success envelope embedding the upstream's
`{}` body. -/
theorem toolsCall_string_query_success_concrete :
    handleFetch upstreamStub .POST (.ok (mkToolsCallReq (.num 4) (.str "catalysishub_graphql")
        (some (.obj [("query", .str "q")])))) =
      ⟨200, some "\x7b\"jsonrpc\":\"2.0\",\"id\":4,\"result\":\x7b\"content\":[\x7b\"type\":\"text\",\"text\":\"\x7b\x7d\"\x7d]\x7d\x7d"⟩ :=
  (toolsCall_wellformed_args_success upstreamStub (.num 4)
    (some (.obj [("query", .str "q")])) (by decide) (by decide)).trans (by rfl)
